import Mathlib

/-!
# Client State Synchronizer — shallow embedding

Shallow embedding of the optimistic-update / rollback logic of the
diary application's top-level components.  The repository ships two
variants of the top-level application component inside `src/App.tsx`
(the `AppContent` function at lines 38-371, called "variant 1" below,
and the `App` arrow component at lines 406-624, "variant 2"), plus a
`Feed` component (`src/unnamed/part_005`).  Handlers of variant 1 carry
the suffix `1`, handlers of variant 2 the suffix `2`.

React state (`useState` collections) is modelled as an explicit
`AppState` record; a `setX(...)` call becomes a functional update of
that record; `console.error`/`console.log` calls append to a `log`
field.  The resolution of an awaited remote call is an explicit
`Except String α` argument: `.ok a` models a fulfilled promise with
value `a`, `.error e` a rejected one caught by the enclosing
`try/catch`.  JS numbers holding like counts are modelled as `Int`
(the code computes `likes - 1`, which can go below zero).
-/

namespace Diary

/-- `Attachment` from `src/types.ts` (duration omitted: never touched). -/
structure Attachment where
  id : String
  type : String
  url : String
  name : String
  deriving Repr, DecidableEq

/-- `JournalEntry` from `src/types.ts`. `mood` is one of the `Mood` enum
strings; optional fields are `Option`s. -/
structure JournalEntry where
  id : String
  date : String
  content : String
  mood : String
  aiReflection : Option String := none
  tags : List String := []
  attachments : List Attachment := []
  includeInFeed : Option Bool := none
  deriving Repr, DecidableEq

/-- `Task` from `src/types.ts`; `priority` holds one of "LOW", "MEDIUM",
"HIGH". -/
structure Task where
  id : String
  title : String
  completed : Bool
  dueDate : Option String := none
  priority : String
  subject : Option String := none
  deriving Repr, DecidableEq

/-- `FeedPost` from `src/types.ts`. -/
structure FeedPost where
  id : String
  entryId : String
  imageUrl : Option String := none
  caption : String
  likes : Int
  isLiked : Bool
  timestamp : String
  moodTag : String
  deriving Repr, DecidableEq

/-- `FriendProfile` from `src/types.ts` (no id field in the source). -/
structure FriendProfile where
  name : String
  personality : String
  context : String
  voiceName : String
  deriving Repr, DecidableEq

/-- `ContentGenerationConfig` from `src/types.ts`.  `outputFormat` is
declared there as the union `'IMAGE' | 'VIDEO'`; it is modelled as
`String` because the fallback literal at `src/App.tsx` line 314 uses the
string "Image", outside that union. -/
structure ContentGenerationConfig where
  artStyle : String
  captionTone : String
  includeAudio : Bool
  outputFormat : String
  deriving Repr, DecidableEq

/-- `FeedItem` from `src/types.ts` (fields the `Feed` component's like
logic can touch; `metaData`/`comicStory` ride along unchanged in the
source and are omitted). -/
structure FeedItem where
  id : String
  sourceType : String
  content : String
  createdAt : String
  likes : Int
  isLiked : Bool
  deriving Repr, DecidableEq

/-- The collections owned by the top-level component, plus a `log` of
`console.error` messages. -/
structure AppState where
  entries : List JournalEntry := []
  tasks : List Task := []
  feedPosts : List FeedPost := []
  friends : List FriendProfile := []
  contentConfig : Option ContentGenerationConfig := none
  log : List String := []
  deriving Repr, DecidableEq

/-- What `/content-config/` returns: the backend sometimes sends a list
and sometimes a single object (`src/App.tsx` line 63 comment). -/
inductive ConfigData where
  | list (cs : List ContentGenerationConfig)
  | obj (c : ContentGenerationConfig)
  deriving Repr, DecidableEq

/-- The remote collaborator's authoritative collections, read by
`fetchData`. -/
structure Server where
  entries : List JournalEntry := []
  tasks : List Task := []
  posts : List FeedPost := []
  friends : List FriendProfile := []
  configData : ConfigData := .list []
  deriving Repr, DecidableEq

/-- `fetchData` (src/App.tsx lines 49-69, variant 1): replaces every
collection wholesale from the collaborator.  The config endpoint's
payload goes through
`Array.isArray(configData) ? configData[0] : configData`; on an empty
array, `configData[0]` is `undefined`, i.e. `none`.  `fetchOk = false`
models the whole `Promise.all` rejecting, caught at line 66: nothing is
set and the error is logged. -/
def fetchData (st : AppState) (srv : Server) (fetchOk : Bool) : AppState :=
  if fetchOk then
    { st with
      entries := srv.entries
      tasks := srv.tasks
      feedPosts := srv.posts
      friends := srv.friends
      contentConfig :=
        match srv.configData with
        | .list cs => cs.head?
        | .obj c => some c }
  else
    { st with log := st.log ++ ["Error fetching data:"] }

/-- The default literal passed to `HomeFeed` when `contentConfig` is
falsy (src/App.tsx lines 310-315, variant 1). -/
def homeFeedDefaultConfig : ContentGenerationConfig :=
  { artStyle := "Abstract"
    captionTone := "Poetic"
    includeAudio := false
    outputFormat := "Image" }

/-- The `contentConfig || {...}` expression at the `HomeFeed` call site
(src/App.tsx line 310): the stored config when present, the default
literal otherwise. -/
def homeFeedConfig (st : AppState) : ContentGenerationConfig :=
  st.contentConfig.getD homeFeedDefaultConfig

/-- The optimistic update shared by both toggle handlers:
`prev.map(t => t.id === id ? { ...t, completed } : t)`. -/
def toggleOptimistic (tasks : List Task) (id : String) (completed : Bool) :
    List Task :=
  tasks.map fun t => if t.id == id then { t with completed := completed } else t

/-- `handleToggleTask` of variant 1 (src/App.tsx lines 147-155): the
optimistic `setTasks` and the `PATCH` sit in one `try`; the `catch` logs
and calls `fetchData()`. -/
def handleToggleTask1 (st : AppState) (srv : Server) (fetchOk : Bool)
    (id : String) (completed : Bool) (remote : Except String Unit) : AppState :=
  let st1 := { st with tasks := toggleOptimistic st.tasks id completed }
  match remote with
  | .ok _ => st1
  | .error _ =>
      fetchData { st1 with log := st1.log ++ ["Failed to toggle task"] }
        srv fetchOk

/-- `handleToggleTask` of variant 2 (src/App.tsx lines 525-533): the
optimistic `setTasks` runs before the `try`; the `catch` only logs. -/
def handleToggleTask2 (st : AppState) (id : String) (completed : Bool)
    (remote : Except String Unit) : AppState :=
  let st1 := { st with tasks := toggleOptimistic st.tasks id completed }
  match remote with
  | .ok _ => st1
  | .error _ => { st1 with log := st1.log ++ ["Failed to toggle task"] }

/-- The optimistic removal shared by both delete handlers:
`prev.filter(t => t.id !== id)`. -/
def deleteOptimistic (tasks : List Task) (id : String) : List Task :=
  tasks.filter fun t => !(t.id == id)

/-- `handleDeleteTask` of variant 1 (src/App.tsx lines 157-165): the
optimistic `setTasks` and the `DELETE` sit in one `try`; the `catch`
logs and calls `fetchData()`. -/
def handleDeleteTask1 (st : AppState) (srv : Server) (fetchOk : Bool)
    (id : String) (remote : Except String Unit) : AppState :=
  let st1 := { st with tasks := deleteOptimistic st.tasks id }
  match remote with
  | .ok _ => st1
  | .error _ =>
      fetchData { st1 with log := st1.log ++ ["Failed to delete task"] }
        srv fetchOk

/-- `handleDeleteTask` of variant 2 (src/App.tsx lines 535-543): the
optimistic `setTasks` runs before the `try`; the `catch` only logs. -/
def handleDeleteTask2 (st : AppState) (id : String)
    (remote : Except String Unit) : AppState :=
  let st1 := { st with tasks := deleteOptimistic st.tasks id }
  match remote with
  | .ok _ => st1
  | .error _ => { st1 with log := st1.log ++ ["Failed to delete task"] }

/-- The body JSON of `api.likePost(id, isLiked, likes)`
(src/services/api.tsx lines 70-77): the pair sent to the collaborator. -/
structure LikeRequest where
  postId : String
  isLiked : Bool
  likes : Int
  deriving Repr, DecidableEq

/-- The optimistic patch of `handleLikePost` (src/App.tsx line 494):
`prev.map(p => p.id === postId ? { ...p, isLiked: newIsLiked, likes: newLikes } : p)`. -/
def applyLike (posts : List FeedPost) (postId : String) (newIsLiked : Bool)
    (newLikes : Int) : List FeedPost :=
  posts.map fun p =>
    if p.id == postId then { p with isLiked := newIsLiked, likes := newLikes }
    else p

/-- The rollback of `handleLikePost` (src/App.tsx line 501):
`prev.map(p => p.id === postId ? post : p)` with `post` the snapshot
taken before the optimistic patch. -/
def revertLike (posts : List FeedPost) (postId : String) (snapshot : FeedPost) :
    List FeedPost :=
  posts.map fun p => if p.id == postId then snapshot else p

/-- `handleLikePost` of variant 2 (src/App.tsx lines 486-503).  Returns
the final state and the request sent to the collaborator (`none` when
the early `if (!post) return` fires and no call is issued). -/
def handleLikePost (st : AppState) (postId : String)
    (remote : Except String Unit) : AppState × Option LikeRequest :=
  match st.feedPosts.find? (fun p => p.id == postId) with
  | none => (st, none)
  | some post =>
    let newIsLiked := !post.isLiked
    let newLikes := if newIsLiked then post.likes + 1 else post.likes - 1
    let optimistic :=
      { st with feedPosts := applyLike st.feedPosts postId newIsLiked newLikes }
    match remote with
    | .ok _ => (optimistic, some ⟨postId, newIsLiked, newLikes⟩)
    | .error _ =>
        ({ optimistic with
            feedPosts := revertLike optimistic.feedPosts postId post
            log := optimistic.log ++ ["Failed to like post"] },
         some ⟨postId, newIsLiked, newLikes⟩)

/-- `n` sequential, non-overlapping invocations of `handleLikePost` each
of which fails remotely (the retry-of-the-rollback-path scenario). -/
def iterFailedLikes (st : AppState) (postId : String) : Nat → AppState
  | 0 => st
  | n + 1 =>
      iterFailedLikes (handleLikePost st postId (.error "Network Error")).1
        postId n

/-- `handleAddTask` of variant 2 (src/App.tsx lines 516-523):
`savedTask = await api.createTask(task); setTasks(prev => [...prev, savedTask])`.
The remote reply carries the collaborator's stored task (with its
assigned id). -/
def handleAddTask2 (st : AppState) (remote : Except String Task) : AppState :=
  match remote with
  | .ok savedTask => { st with tasks := st.tasks ++ [savedTask] }
  | .error _ => { st with log := st.log ++ ["Failed to add task"] }

/-- `handleAddTask` of variant 1 (src/App.tsx lines 138-145): same shape
(`res = await api.post; setTasks(prev => [...prev, res.data])`). -/
def handleAddTask1 (st : AppState) (remote : Except String Task) : AppState :=
  match remote with
  | .ok saved => { st with tasks := st.tasks ++ [saved] }
  | .error _ => { st with log := st.log ++ ["Failed to add task"] }

/-- `handleAddEntry` of variant 2 (src/App.tsx lines 454-464): strips the
client id, sends the data, appends the collaborator's saved entry. -/
def handleAddEntry2 (st : AppState) (remote : Except String JournalEntry) :
    AppState :=
  match remote with
  | .ok savedEntry => { st with entries := st.entries ++ [savedEntry] }
  | .error _ => { st with log := st.log ++ ["Failed to save entry"] }

/-- `handleAddEntry` of variant 1 (src/App.tsx lines 76-84): posts the
entry then refetches every collection; the `catch` only logs. -/
def handleAddEntry1 (st : AppState) (srv : Server) (fetchOk : Bool)
    (remote : Except String Unit) : AppState :=
  match remote with
  | .ok _ => fetchData st srv fetchOk
  | .error _ => { st with log := st.log ++ ["Failed to add entry"] }

/-- `handleUpdateEntry` of variant 1 (src/App.tsx lines 86-93): issues
the `PUT` and, only after it succeeds, refetches; no optimistic merge,
and the `catch` only logs. -/
def handleUpdateEntry1 (st : AppState) (srv : Server) (fetchOk : Bool)
    (remote : Except String Unit) : AppState :=
  match remote with
  | .ok _ => fetchData st srv fetchOk
  | .error _ => { st with log := st.log ++ ["Failed to update entry"] }

/-- `handleDeleteEntry` of variant 1 (src/App.tsx lines 95-102). -/
def handleDeleteEntry1 (st : AppState) (srv : Server) (fetchOk : Bool)
    (remote : Except String Unit) : AppState :=
  match remote with
  | .ok _ => fetchData st srv fetchOk
  | .error _ => { st with log := st.log ++ ["Failed to delete entry"] }

/-- `handleAddPost` of variant 1 (src/App.tsx lines 104-111). -/
def handleAddPost1 (st : AppState) (srv : Server) (fetchOk : Bool)
    (remote : Except String Unit) : AppState :=
  match remote with
  | .ok _ => fetchData st srv fetchOk
  | .error _ => { st with log := st.log ++ ["Failed to add post"] }

/-- `handleAddPost` of variant 2 (src/App.tsx lines 466-474). -/
def handleAddPost2 (st : AppState) (remote : Except String FeedPost) :
    AppState :=
  match remote with
  | .ok savedPost => { st with feedPosts := st.feedPosts ++ [savedPost] }
  | .error _ => { st with log := st.log ++ ["Failed to save post"] }

/-- `handleAddFriend` of variant 1 (src/App.tsx lines 119-126). -/
def handleAddFriend1 (st : AppState) (srv : Server) (fetchOk : Bool)
    (remote : Except String Unit) : AppState :=
  match remote with
  | .ok _ => fetchData st srv fetchOk
  | .error _ => { st with log := st.log ++ ["Failed to add friend"] }

/-- `handleAddFriend` of variant 2 (src/App.tsx lines 476-484). -/
def handleAddFriend2 (st : AppState) (remote : Except String FriendProfile) :
    AppState :=
  match remote with
  | .ok savedFriend => { st with friends := st.friends ++ [savedFriend] }
  | .error _ => { st with log := st.log ++ ["Failed to add friend"] }

/-- `handleUpdateConfig` of variant 1 (src/App.tsx lines 128-136): `PUT`
first, `setContentConfig(newConfig)` only after success. -/
def handleUpdateConfig1 (st : AppState) (newConfig : ContentGenerationConfig)
    (remote : Except String Unit) : AppState :=
  match remote with
  | .ok _ => { st with contentConfig := some newConfig }
  | .error _ => { st with log := st.log ++ ["Failed to update config"] }

/-- `handleUpdateConfig` of variant 2 (src/App.tsx lines 505-512):
optimistic `setContentConfig(newConfig)` before the `try`; the `catch`
only logs. -/
def handleUpdateConfig2 (st : AppState) (newConfig : ContentGenerationConfig)
    (remote : Except String Unit) : AppState :=
  let st1 := { st with contentConfig := some newConfig }
  match remote with
  | .ok _ => st1
  | .error _ => { st1 with log := st1.log ++ ["Failed to update config"] }

/-- State of the `Feed` component (src/unnamed/part_005): its own item
collection and log. -/
structure FeedState where
  items : List FeedItem := []
  log : List String := []
  deriving Repr, DecidableEq

/-- `handleLike` of the `Feed` component (src/unnamed/part_005 lines
57-66): `await api.post(.../like/)` comes FIRST; only on success does
`setItems(items.map(item => item.id === id ? { ...item, likes: item.likes + 1, isLiked: true } : item))`
run; the `catch` only logs, leaving the items untouched. -/
def feedHandleLike (st : FeedState) (id : String)
    (remote : Except String Unit) : FeedState :=
  match remote with
  | .ok _ =>
      { st with
        items := st.items.map fun item =>
          if item.id == id then
            { item with likes := item.likes + 1, isLiked := true }
          else item }
  | .error _ => { st with log := st.log ++ ["Error liking item:"] }

/-- One mutation intent of the `AppContent`/`App` handlers (both
variants), carrying the resolution of the remote call it awaits.
`handleLikePost` of variant 1 (src/App.tsx lines 113-117) is a stub that
issues no remote call and is therefore not a mutation here.  Payload
arguments a handler never reads locally (for example the posted entry in
`handleAddEntry` of variant 1, which reaches the local state only
through the refetch) are omitted. -/
inductive Mutation where
  | addEntry1 (remote : Except String Unit)
  | updateEntry1 (remote : Except String Unit)
  | deleteEntry1 (remote : Except String Unit)
  | addPost1 (remote : Except String Unit)
  | addFriend1 (remote : Except String Unit)
  | updateConfig1 (c : ContentGenerationConfig) (remote : Except String Unit)
  | addTask1 (remote : Except String Task)
  | toggleTask1 (id : String) (completed : Bool) (remote : Except String Unit)
  | deleteTask1 (id : String) (remote : Except String Unit)
  | addEntry2 (remote : Except String JournalEntry)
  | addPost2 (remote : Except String FeedPost)
  | addFriend2 (remote : Except String FriendProfile)
  | likePost2 (postId : String) (remote : Except String Unit)
  | updateConfig2 (c : ContentGenerationConfig) (remote : Except String Unit)
  | addTask2 (remote : Except String Task)
  | toggleTask2 (id : String) (completed : Bool) (remote : Except String Unit)
  | deleteTask2 (id : String) (remote : Except String Unit)
  deriving Repr

/-- The error carried by a mutation's remote resolution, if any. -/
def Mutation.remoteError : Mutation → Option String
  | .addEntry1 (.error e) => some e
  | .updateEntry1 (.error e) => some e
  | .deleteEntry1 (.error e) => some e
  | .addPost1 (.error e) => some e
  | .addFriend1 (.error e) => some e
  | .updateConfig1 _ (.error e) => some e
  | .addTask1 (.error e) => some e
  | .toggleTask1 _ _ (.error e) => some e
  | .deleteTask1 _ (.error e) => some e
  | .addEntry2 (.error e) => some e
  | .addPost2 (.error e) => some e
  | .addFriend2 (.error e) => some e
  | .likePost2 _ (.error e) => some e
  | .updateConfig2 _ (.error e) => some e
  | .addTask2 (.error e) => some e
  | .toggleTask2 _ _ (.error e) => some e
  | .deleteTask2 _ (.error e) => some e
  | _ => none

/-- The `console.error` prefix each handler's `catch` logs. -/
def Mutation.errMsg : Mutation → String
  | .addEntry1 _ => "Failed to add entry"
  | .updateEntry1 _ => "Failed to update entry"
  | .deleteEntry1 _ => "Failed to delete entry"
  | .addPost1 _ => "Failed to add post"
  | .addFriend1 _ => "Failed to add friend"
  | .updateConfig1 _ _ => "Failed to update config"
  | .addTask1 _ => "Failed to add task"
  | .toggleTask1 _ _ _ => "Failed to toggle task"
  | .deleteTask1 _ _ => "Failed to delete task"
  | .addEntry2 _ => "Failed to save entry"
  | .addPost2 _ => "Failed to save post"
  | .addFriend2 _ => "Failed to add friend"
  | .likePost2 _ _ => "Failed to like post"
  | .updateConfig2 _ _ => "Failed to update config"
  | .addTask2 _ => "Failed to add task"
  | .toggleTask2 _ _ _ => "Failed to toggle task"
  | .deleteTask2 _ _ => "Failed to delete task"

/-- Whether the handler actually issues its remote call from state `st`:
only `handleLikePost` can bail out first (`if (!post) return`). -/
def Mutation.issuesRemoteCall (st : AppState) : Mutation → Bool
  | .likePost2 postId _ => (st.feedPosts.find? fun p => p.id == postId).isSome
  | _ => true

/-- The mutation dispatcher: runs the handler a `Mutation` names.  Every
handler is a total function into `AppState` — the embedding of the fact
that each one wraps its remote call in `try/catch` and never rethrows,
so no exception reaches the caller. -/
def dispatch (st : AppState) (srv : Server) (fetchOk : Bool) :
    Mutation → AppState
  | .addEntry1 r => handleAddEntry1 st srv fetchOk r
  | .updateEntry1 r => handleUpdateEntry1 st srv fetchOk r
  | .deleteEntry1 r => handleDeleteEntry1 st srv fetchOk r
  | .addPost1 r => handleAddPost1 st srv fetchOk r
  | .addFriend1 r => handleAddFriend1 st srv fetchOk r
  | .updateConfig1 c r => handleUpdateConfig1 st c r
  | .addTask1 r => handleAddTask1 st r
  | .toggleTask1 id c r => handleToggleTask1 st srv fetchOk id c r
  | .deleteTask1 id r => handleDeleteTask1 st srv fetchOk id r
  | .addEntry2 r => handleAddEntry2 st r
  | .addPost2 r => handleAddPost2 st r
  | .addFriend2 r => handleAddFriend2 st r
  | .likePost2 postId r => (handleLikePost st postId r).1
  | .updateConfig2 c r => handleUpdateConfig2 st c r
  | .addTask2 r => handleAddTask2 st r
  | .toggleTask2 id c r => handleToggleTask2 st id c r
  | .deleteTask2 id r => handleDeleteTask2 st id r

/-- A sample task used by several witness statements (the end-to-end
scenario of spec section 8: the collaborator stores
`{title:"Write report", priority:"HIGH"}` under the durable id "42"). -/
def task42 : Task :=
  { id := "42", title := "Write report", completed := false, priority := "HIGH" }

/-- A sample feed post used by several witness statements. -/
def postP1 : FeedPost :=
  { id := "p1", entryId := "e1", caption := "hello", likes := 3,
    isLiked := false, timestamp := "2024-01-01", moodTag := "GOOD" }

/-- A sample journal entry used by witness statements. -/
def entry9 : JournalEntry :=
  { id := "e9", date := "2024-06-01", content := "Dear diary", mood := "GOOD" }

/-- A sample feed item that is already liked, used by witness
statements. -/
def itemLiked : FeedItem :=
  { id := "f1", sourceType := "DIARY", content := "a day", createdAt := "2024",
    likes := 5, isLiked := true }

/-! ## Helper lemmas -/

/-- `Array.find` / `List.find?` locates the (unique) post with the given
id. -/
theorem find?_eq_some_of_unique (l : List FeedPost) (post : FeedPost)
    (postId : String) (hmem : post ∈ l) (hid : post.id = postId)
    (huniq : ∀ q ∈ l, q.id = postId → q = post) :
    l.find? (fun p => p.id == postId) = some post := by
  induction l with
  | nil => cases hmem
  | cons hd tl ih =>
    by_cases hh : hd.id = postId
    · have heq : hd = post := huniq hd (List.mem_cons_self hd tl) hh
      simp [List.find?_cons, heq, hid]
    · have hne : (hd.id == postId) = false := by simp [hh]
      have hpost : post ∈ tl := by
        rcases List.mem_cons.mp hmem with h1 | h1
        · exact absurd (by rw [← h1]; exact hid) hh
        · exact h1
      simp only [List.find?_cons, hne]
      exact ih hpost fun q hq hq2 => huniq q (List.mem_cons_of_mem _ hq) hq2

/-- Rolling back the optimistic like patch restores the original list
when the patched id occurs at most once (with `post` its snapshot). -/
theorem revertLike_applyLike (posts : List FeedPost) (postId : String)
    (post : FeedPost) (b : Bool) (n : Int)
    (huniq : ∀ q ∈ posts, q.id = postId → q = post) :
    revertLike (applyLike posts postId b n) postId post = posts := by
  unfold revertLike applyLike
  rw [List.map_map]
  have hpt : ∀ q ∈ posts,
      ((fun p => if p.id == postId then post else p) ∘
        (fun p =>
          if p.id == postId then { p with isLiked := b, likes := n }
          else p)) q = q := by
    intro q hq
    by_cases h : q.id = postId
    · have hq2 : q = post := huniq q hq h
      subst hq2
      simp [Function.comp, h]
    · simp [Function.comp, h]
  rw [List.map_congr_left hpt]
  simp

/-- One failed like leaves the feed collection exactly as it was
(rollback is exact), provided post ids are unique. -/
theorem failedLike_feedPosts (st : AppState) (postId : String) (e : String)
    (huniq : ∀ p ∈ st.feedPosts, ∀ q ∈ st.feedPosts,
      p.id = postId → q.id = postId → p = q) :
    (handleLikePost st postId (.error e)).1.feedPosts = st.feedPosts := by
  cases hfind : st.feedPosts.find? (fun p => p.id == postId) with
  | none => simp [handleLikePost, hfind]
  | some post =>
    have hpmem := List.mem_of_find?_eq_some hfind
    have hpid : post.id = postId := by
      have := List.find?_some hfind
      simpa using this
    simp only [handleLikePost, hfind]
    exact revertLike_applyLike st.feedPosts postId post _ _
      fun q hq hq2 => huniq q hq post hpmem hq2 hpid

/-! ## Claim theorems -/

/-- C1 (counterexample): the claim "if the remote call fails, the local
completed boolean reverts to its pre-toggle value" is false for the
`handleToggleTask` at src/App.tsx lines 525-533.  Concrete input: one
task with id "1" and `completed = false`; `Toggle("1", true)` whose
remote `PATCH` rejects.  The local boolean stays `true` (the catch only
logs); it does not revert to `false`. -/
theorem toggleTask2_no_rollback_counterexample :
    (handleToggleTask2
        { tasks := [{ id := "1", title := "Write report",
                      completed := false, priority := "HIGH" }] }
        "1" true (.error "HTTP 500")).tasks =
      [{ id := "1", title := "Write report",
         completed := true, priority := "HIGH" }] ∧
    (handleToggleTask2
        { tasks := [{ id := "1", title := "Write report",
                      completed := false, priority := "HIGH" }] }
        "1" true (.error "HTTP 500")).tasks ≠
      [{ id := "1", title := "Write report",
         completed := false, priority := "HIGH" }] := by
  constructor
  · rfl
  · decide

/-- C1 (amended): `Toggle(id, completed)` sets the task's boolean in the
local collection before the remote call resolves, in both variants; if
the remote call fails, the variant at src/App.tsx lines 147-155 refetches
and thereby reverts the boolean to the collaborator's (pre-toggle) value,
while the variant at lines 525-533 leaves the toggled value in place and
only logs. -/
theorem toggleTask_optimistic_divergent_failure
    (st : AppState) (srv : Server) (id : String) (c : Bool) (e : String)
    (t : Task) (hmem : t ∈ st.tasks) (hid : t.id = id)
    (hsrv : srv.tasks = st.tasks) :
    ({ t with completed := c } ∈ toggleOptimistic st.tasks id c) ∧
    ((handleToggleTask1 st srv true id c (.ok ())).tasks =
      toggleOptimistic st.tasks id c) ∧
    ((handleToggleTask2 st id c (.ok ())).tasks =
      toggleOptimistic st.tasks id c) ∧
    ((handleToggleTask1 st srv true id c (.error e)).tasks = st.tasks) ∧
    ((handleToggleTask2 st id c (.error e)).tasks =
      toggleOptimistic st.tasks id c) := by
  refine ⟨?_, rfl, rfl, ?_, rfl⟩
  · have := List.mem_map_of_mem
      (fun t : Task => if t.id == id then { t with completed := c } else t) hmem
    simpa [toggleOptimistic, hid] using this
  · simp [handleToggleTask1, fetchData, hsrv]

/-- C1 witness: the amended toggle theorem at the concrete end-to-end
input of spec section 8 (task id "42", completed false→true, remote
500). -/
theorem toggleTask_optimistic_divergent_failure_witness :
    ({ task42 with completed := true } ∈
        toggleOptimistic [task42] "42" true) ∧
    ((handleToggleTask1 { tasks := [task42] } { tasks := [task42] } true
        "42" true (.ok ())).tasks = toggleOptimistic [task42] "42" true) ∧
    ((handleToggleTask2 { tasks := [task42] } "42" true (.ok ())).tasks =
      toggleOptimistic [task42] "42" true) ∧
    ((handleToggleTask1 { tasks := [task42] } { tasks := [task42] } true
        "42" true (.error "HTTP 500")).tasks = [task42]) ∧
    ((handleToggleTask2 { tasks := [task42] } "42" true
        (.error "HTTP 500")).tasks = toggleOptimistic [task42] "42" true) :=
  toggleTask_optimistic_divergent_failure
    { tasks := [task42] } { tasks := [task42] } "42" true "HTTP 500"
    task42 (by decide) (by decide) rfl

/-- C2 (counterexample): when the collaborator returns an empty list for
the configuration query, the stored config becomes `undefined` (`none`),
contradicting "never a null or undefined config"; and the default
literal the feed falls back to has `outputFormat = "Image"`, not the
claimed `"IMAGE"`. -/
theorem config_empty_list_counterexample :
    (fetchData {} { configData := .list [] } true).contentConfig = none ∧
    (homeFeedConfig (fetchData {} { configData := .list [] } true)).outputFormat
      = "Image" ∧
    "Image" ≠ "IMAGE" := by
  refine ⟨rfl, rfl, ?_⟩
  decide

/-- C2 (amended): when the collaborator returns an empty list, the stored
configuration is `undefined`, and the configuration the feed consumes
falls back to the default literal `{artStyle "Abstract", captionTone
"Poetic", includeAudio false, outputFormat "Image"}`; when the
collaborator returns a non-empty list, its first element is taken as
authoritative. -/
theorem config_fallback_first_or_default (st : AppState) (srv : Server) :
    (srv.configData = .list [] →
      (fetchData st srv true).contentConfig = none ∧
      homeFeedConfig (fetchData st srv true) = homeFeedDefaultConfig ∧
      homeFeedDefaultConfig =
        { artStyle := "Abstract", captionTone := "Poetic",
          includeAudio := false, outputFormat := "Image" }) ∧
    (∀ c cs, srv.configData = .list (c :: cs) →
      (fetchData st srv true).contentConfig = some c) := by
  constructor
  · intro h
    refine ⟨?_, ?_, rfl⟩ <;> simp [fetchData, h, homeFeedConfig]
  · intro c cs h
    simp [fetchData, h]

/-- C2 witness: the config fallback theorem at concrete inputs (both the
empty-list and the non-empty-list case). -/
theorem config_fallback_first_or_default_witness :
    ((fetchData {} { configData := .list [] } true).contentConfig = none ∧
      homeFeedConfig (fetchData {} { configData := .list [] } true) =
        homeFeedDefaultConfig ∧
      homeFeedDefaultConfig =
        { artStyle := "Abstract", captionTone := "Poetic",
          includeAudio := false, outputFormat := "Image" }) ∧
    (fetchData {} { configData := .list [homeFeedDefaultConfig] }
        true).contentConfig = some homeFeedDefaultConfig :=
  ⟨(config_fallback_first_or_default {} { configData := .list [] }).1 rfl,
   (config_fallback_first_or_default {}
      { configData := .list [homeFeedDefaultConfig] }).2
     homeFeedDefaultConfig [] rfl⟩

/-- C5 (counterexample): the claim "if the remote delete fails, a full
refetch is triggered so that any entity the collaborator still holds is
restored" is false for the `handleDeleteTask` at src/App.tsx lines
535-543.  Concrete input: one task with id "42"; the remote `DELETE`
rejects, so the collaborator still holds the task — yet the local
collection stays empty and the handler only logs (it never consults the
collaborator: the refetch is absent). -/
theorem deleteTask2_no_refetch_counterexample :
    (handleDeleteTask2 { tasks := [task42] } "42"
        (.error "HTTP 500")).tasks = [] ∧
    (handleDeleteTask2 { tasks := [task42] } "42"
        (.error "HTTP 500")).log = ["Failed to delete task"] := by
  constructor <;> rfl

/-- C5 (amended): after `Delete(id)` the id is immediately absent from
the local collection regardless of the remote outcome, in both variants;
if the remote delete fails, the variant at src/App.tsx lines 157-165
triggers a full refetch that restores the collaborator's collection
wholesale, while the variant at lines 535-543 leaves the collection
without the entity and only logs. -/
theorem deleteTask_unconditional_removal_divergent_failure
    (st : AppState) (srv : Server) (id : String) (e : String) :
    (∀ t ∈ deleteOptimistic st.tasks id, t.id ≠ id) ∧
    ((handleDeleteTask1 st srv true id (.ok ())).tasks =
      deleteOptimistic st.tasks id) ∧
    ((handleDeleteTask2 st id (.ok ())).tasks =
      deleteOptimistic st.tasks id) ∧
    ((handleDeleteTask1 st srv true id (.error e)).tasks = srv.tasks) ∧
    ((handleDeleteTask2 st id (.error e)).tasks =
      deleteOptimistic st.tasks id) := by
  refine ⟨?_, rfl, rfl, ?_, rfl⟩
  · intro t ht
    have := (List.mem_filter.mp ht).2
    simpa using this
  · simp [handleDeleteTask1, fetchData]

/-- C5 witness: the amended delete theorem at the concrete input of spec
section 8 (task id "42", remote 500, collaborator still holding the
task). -/
theorem deleteTask_unconditional_removal_divergent_failure_witness :
    (∀ t ∈ deleteOptimistic [task42] "42", t.id ≠ "42") ∧
    ((handleDeleteTask1 { tasks := [task42] } { tasks := [task42] } true
        "42" (.ok ())).tasks = deleteOptimistic [task42] "42") ∧
    ((handleDeleteTask2 { tasks := [task42] } "42" (.ok ())).tasks =
      deleteOptimistic [task42] "42") ∧
    ((handleDeleteTask1 { tasks := [task42] } { tasks := [task42] } true
        "42" (.error "HTTP 500")).tasks = [task42]) ∧
    ((handleDeleteTask2 { tasks := [task42] } "42"
        (.error "HTTP 500")).tasks = deleteOptimistic [task42] "42") :=
  deleteTask_unconditional_removal_divergent_failure
    { tasks := [task42] } { tasks := [task42] } "42" "HTTP 500"

/-- C7 (counterexample): the claim "on remote failure either the prior
rollback value is restored or a refetch corrects the local state" is
false for the `handleToggleTask` specialization of Update at src/App.tsx
lines 525-533.  Concrete input: one task with id "7" and
`completed = false`; `Update("7", {completed: true})` whose remote call
rejects.  The merged value `true` stays in the local copy: the prior
value `false` is not restored and no refetch is issued. -/
theorem update_no_restore_counterexample :
    ((handleToggleTask2
        { tasks := [{ id := "7", title := "Read paper",
                      completed := false, priority := "LOW" }] }
        "7" true (.error "HTTP 500")).tasks.map Task.completed = [true]) ∧
    (([{ id := "7", title := "Read paper",
         completed := false, priority := "LOW" }] : List Task).map
        Task.completed = [false]) := by
  constructor <;> rfl

/-- C7 (amended): of the two cited Update implementations, the toggle
handler (src/App.tsx lines 525-533) optimistically merges the new state
into the local copy before the remote update resolves but keeps the
merged value on failure (only logging); the entry-update handler
(src/App.tsx lines 86-93) performs no optimistic merge — it corrects the
local state by a refetch only after the remote update succeeds, and on
failure leaves the local state unchanged (only logging). -/
theorem update_actual_failure_behavior
    (st : AppState) (srv : Server) (id : String) (c : Bool) (e : String)
    (fetchOk : Bool) :
    ((handleToggleTask2 st id c (.ok ())).tasks =
      toggleOptimistic st.tasks id c) ∧
    ((handleToggleTask2 st id c (.error e)).tasks =
      toggleOptimistic st.tasks id c) ∧
    ((handleToggleTask2 st id c (.error e)).log =
      st.log ++ ["Failed to toggle task"]) ∧
    ((handleUpdateEntry1 st srv true (.ok ())).entries = srv.entries) ∧
    ((handleUpdateEntry1 st srv fetchOk (.error e)).entries = st.entries) ∧
    ((handleUpdateEntry1 st srv fetchOk (.error e)).log =
      st.log ++ ["Failed to update entry"]) := by
  refine ⟨rfl, rfl, rfl, ?_, rfl, rfl⟩
  simp [handleUpdateEntry1, fetchData]

/-- C3: for a post present in the local feed (with its id unique there),
`Like(id)` computes the new pair — flag flipped, count incremented when
flipping to liked and decremented when flipping to unliked — sends
exactly that pair to the collaborator whatever the outcome, installs it
optimistically (the success state is exactly the optimistic patch, which
contains the patched record), and on remote failure restores the feed to
its exact pre-like contents. -/
theorem likePost_optimistic_send_rollback
    (st : AppState) (postId : String) (post : FeedPost) (e : String)
    (hmem : post ∈ st.feedPosts) (hid : post.id = postId)
    (huniq : ∀ q ∈ st.feedPosts, q.id = postId → q = post) :
    ((handleLikePost st postId (.ok ())).2 =
      some ⟨postId, !post.isLiked,
        if !post.isLiked then post.likes + 1 else post.likes - 1⟩) ∧
    ((handleLikePost st postId (.error e)).2 =
      some ⟨postId, !post.isLiked,
        if !post.isLiked then post.likes + 1 else post.likes - 1⟩) ∧
    ((handleLikePost st postId (.ok ())).1.feedPosts =
      applyLike st.feedPosts postId (!post.isLiked)
        (if !post.isLiked then post.likes + 1 else post.likes - 1)) ∧
    ({ post with
        isLiked := !post.isLiked
        likes := if !post.isLiked then post.likes + 1 else post.likes - 1 } ∈
      (handleLikePost st postId (.ok ())).1.feedPosts) ∧
    ((handleLikePost st postId (.error e)).1.feedPosts = st.feedPosts) := by
  have hfind := find?_eq_some_of_unique st.feedPosts post postId hmem hid huniq
  refine ⟨?_, ?_, ?_, ?_, ?_⟩
  · simp [handleLikePost, hfind]
  · simp [handleLikePost, hfind]
  · simp [handleLikePost, hfind]
  · have h1 : (handleLikePost st postId (.ok ())).1.feedPosts =
        applyLike st.feedPosts postId (!post.isLiked)
          (if !post.isLiked then post.likes + 1 else post.likes - 1) := by
      simp [handleLikePost, hfind]
    rw [h1]
    have h2 := List.mem_map_of_mem
      (fun p : FeedPost =>
        if p.id == postId then
          { p with
            isLiked := !post.isLiked
            likes := if !post.isLiked then post.likes + 1 else post.likes - 1 }
        else p) hmem
    simpa [applyLike, hid] using h2
  · simp only [handleLikePost, hfind]
    exact revertLike_applyLike st.feedPosts postId post _ _ huniq

/-- C3 witness: the like contract at a concrete one-post feed (post
"p1", 3 likes, not yet liked; remote rejection on the failure leg). -/
theorem likePost_optimistic_send_rollback_witness :
    ((handleLikePost { feedPosts := [postP1] } "p1" (.ok ())).2 =
      some ⟨"p1", !postP1.isLiked,
        if !postP1.isLiked then postP1.likes + 1 else postP1.likes - 1⟩) ∧
    ((handleLikePost { feedPosts := [postP1] } "p1" (.error "HTTP 500")).2 =
      some ⟨"p1", !postP1.isLiked,
        if !postP1.isLiked then postP1.likes + 1 else postP1.likes - 1⟩) ∧
    ((handleLikePost { feedPosts := [postP1] } "p1" (.ok ())).1.feedPosts =
      applyLike [postP1] "p1" (!postP1.isLiked)
        (if !postP1.isLiked then postP1.likes + 1 else postP1.likes - 1)) ∧
    ({ postP1 with
        isLiked := !postP1.isLiked
        likes := if !postP1.isLiked then postP1.likes + 1
                 else postP1.likes - 1 } ∈
      (handleLikePost { feedPosts := [postP1] } "p1" (.ok ())).1.feedPosts) ∧
    ((handleLikePost { feedPosts := [postP1] } "p1"
        (.error "HTTP 500")).1.feedPosts = [postP1]) :=
  likePost_optimistic_send_rollback { feedPosts := [postP1] } "p1" postP1
    "HTTP 500" (by decide) (by decide) (by decide)

/-- C4: a finite sequence of sequential, non-overlapping `Like(postId)`
invocations, each failing remotely and rolling back, leaves every post's
likes count and isLiked flag at their exact values before the first
invocation (no drift), provided post ids are unique in the feed. -/
theorem likePost_failed_retries_drift_free
    (st : AppState) (postId : String)
    (huniq : ∀ p ∈ st.feedPosts, ∀ q ∈ st.feedPosts,
      p.id = postId → q.id = postId → p = q) :
    ∀ n, (iterFailedLikes st postId n).feedPosts = st.feedPosts := by
  suffices h : ∀ (n : Nat) (s : AppState),
      (∀ p ∈ s.feedPosts, ∀ q ∈ s.feedPosts,
        p.id = postId → q.id = postId → p = q) →
      (iterFailedLikes s postId n).feedPosts = s.feedPosts from
    fun n => h n st huniq
  intro n
  induction n with
  | zero => intro s _; rfl
  | succ n ih =>
    intro s hs
    have hstep : (handleLikePost s postId
        (Except.error "Network Error")).1.feedPosts = s.feedPosts :=
      failedLike_feedPosts s postId _ hs
    have hnext : ∀ p ∈ (handleLikePost s postId
          (Except.error "Network Error")).1.feedPosts,
        ∀ q ∈ (handleLikePost s postId
          (Except.error "Network Error")).1.feedPosts,
        p.id = postId → q.id = postId → p = q := by
      rw [hstep]; exact hs
    calc (iterFailedLikes s postId (n + 1)).feedPosts
        = (iterFailedLikes (handleLikePost s postId
            (Except.error "Network Error")).1 postId n).feedPosts := rfl
      _ = (handleLikePost s postId
            (Except.error "Network Error")).1.feedPosts := ih _ hnext
      _ = s.feedPosts := hstep

/-- C4 witness: three consecutive failed likes on the one-post feed leave
it exactly as it started. -/
theorem likePost_failed_retries_drift_free_witness :
    (iterFailedLikes { feedPosts := [postP1] } "p1" 3).feedPosts =
      [postP1] :=
  likePost_failed_retries_drift_free { feedPosts := [postP1] } "p1"
    (by decide) 3

/-- C9: when no post in the local feed matches `postId`, the like
operation is a complete no-op — the returned state is the input state
(every collection unchanged) and no remote request is produced. -/
theorem likePost_unknown_id_noop
    (st : AppState) (postId : String) (r : Except String Unit)
    (habsent : ∀ p ∈ st.feedPosts, p.id ≠ postId) :
    handleLikePost st postId r = (st, none) := by
  have hfind : st.feedPosts.find? (fun p => p.id == postId) = none := by
    rw [List.find?_eq_none]
    intro p hp
    simpa using habsent p hp
  simp [handleLikePost, hfind]

/-- C9 witness: liking the absent id "zzz" on the one-post feed returns
the state untouched and issues no call. -/
theorem likePost_unknown_id_noop_witness :
    handleLikePost { feedPosts := [postP1] } "zzz" (.ok ()) =
      ({ feedPosts := [postP1] }, none) :=
  likePost_unknown_id_noop { feedPosts := [postP1] } "zzz" (.ok ())
    (by decide)

/-- C6: after `Create(E)` succeeds — the collaborator returns the stored
record with its durable id, and that id is fresh for the local
collection — the local collection contains exactly one record with that
id, and it is the collaborator's stored version (shown for both task
handlers and the variant-2 entry handler). -/
theorem create_success_appends_exactly_server_record
    (st : AppState) (saved : Task) (savedEntry : JournalEntry)
    (hfresh : ∀ t ∈ st.tasks, t.id ≠ saved.id)
    (hfreshE : ∀ en ∈ st.entries, en.id ≠ savedEntry.id) :
    ((handleAddTask2 st (.ok saved)).tasks.filter
        (fun t => t.id == saved.id) = [saved]) ∧
    ((handleAddTask1 st (.ok saved)).tasks.filter
        (fun t => t.id == saved.id) = [saved]) ∧
    ((handleAddEntry2 st (.ok savedEntry)).entries.filter
        (fun en => en.id == savedEntry.id) = [savedEntry]) := by
  have hT : st.tasks.filter (fun t => t.id == saved.id) = [] :=
    List.filter_eq_nil_iff.mpr fun t ht => by simpa using hfresh t ht
  have hE : st.entries.filter (fun en => en.id == savedEntry.id) = [] :=
    List.filter_eq_nil_iff.mpr fun en hen => by simpa using hfreshE en hen
  refine ⟨?_, ?_, ?_⟩
  · simp [handleAddTask2, List.filter_append, hT]
  · simp [handleAddTask1, List.filter_append, hT]
  · simp [handleAddEntry2, List.filter_append, hE]

/-- C6 witness: the end-to-end scenario of spec section 8 — creating
{title:"Write report", priority:"HIGH"} against an empty collection,
with the collaborator returning
{id:"42", title:"Write report", priority:"HIGH", completed:false},
leaves the collection holding exactly that record with id "42". -/
theorem create_success_appends_exactly_server_record_witness :
    ((handleAddTask2 {} (.ok task42)).tasks.filter
        (fun t => t.id == task42.id) = [task42]) ∧
    ((handleAddTask1 {} (.ok task42)).tasks.filter
        (fun t => t.id == task42.id) = [task42]) ∧
    ((handleAddEntry2 {} (.ok entry9)).entries.filter
        (fun en => en.id == entry9.id) = [entry9]) :=
  create_success_appends_exactly_server_record {} task42 entry9
    (by simp) (by simp)

/-- C10: the `Feed` component's like applies no local change before the
remote call resolves — on remote failure the item collection is left
entirely unchanged — and on success it increments the matching item's
likes by exactly 1 and sets `isLiked` to `true` unconditionally (no
`isLiked` precondition: this holds even for an already-liked item, so
the operation never decrements or unlikes), leaving non-matching items
untouched. -/
theorem feed_like_remote_first_unconditional_increment
    (st : FeedState) (id : String) (e : String) (item : FeedItem)
    (hmem : item ∈ st.items) :
    ((feedHandleLike st id (.error e)).items = st.items) ∧
    (item.id = id →
      { item with likes := item.likes + 1, isLiked := true } ∈
        (feedHandleLike st id (.ok ())).items) ∧
    (item.id ≠ id →
      item ∈ (feedHandleLike st id (.ok ())).items) := by
  refine ⟨rfl, ?_, ?_⟩
  · intro h
    have h2 := List.mem_map_of_mem
      (fun it : FeedItem =>
        if it.id == id then { it with likes := it.likes + 1, isLiked := true }
        else it) hmem
    simpa [feedHandleLike, h] using h2
  · intro h
    have h2 := List.mem_map_of_mem
      (fun it : FeedItem =>
        if it.id == id then { it with likes := it.likes + 1, isLiked := true }
        else it) hmem
    simpa [feedHandleLike, h] using h2

/-- C10 witness: the already-liked item "f1" (5 likes, isLiked true):
a failed like leaves the collection unchanged; a successful like takes
it to 6 likes and isLiked true — it is liked again, not unliked. -/
theorem feed_like_remote_first_unconditional_increment_witness :
    ((feedHandleLike { items := [itemLiked] } "f1"
        (.error "HTTP 500")).items = [itemLiked]) ∧
    (itemLiked.id = "f1" →
      { itemLiked with likes := itemLiked.likes + 1, isLiked := true } ∈
        (feedHandleLike { items := [itemLiked] } "f1" (.ok ())).items) ∧
    (itemLiked.id ≠ "f1" →
      itemLiked ∈ (feedHandleLike { items := [itemLiked] } "f1"
        (.ok ())).items) :=
  feed_like_remote_first_unconditional_increment
    { items := [itemLiked] } "f1" "HTTP 500" itemLiked (by decide)

/-- C8: for every mutation of either variant's handlers whose remote
call actually goes out and rejects, the dispatcher still produces a
normal next state (each handler is a total function: the `try/catch` at
the operation boundary never rethrows, so no exception escapes to the
caller), and the handler's `console.error` message is appended to the
log (possibly followed by a refetch-failure log entry). -/
theorem mutation_failure_caught_and_logged
    (st : AppState) (srv : Server) (fetchOk : Bool) (m : Mutation)
    (e : String) (herr : m.remoteError = some e)
    (hcall : m.issuesRemoteCall st = true) :
    ∃ rest, (dispatch st srv fetchOk m).log = st.log ++ [m.errMsg] ++ rest := by
  cases m with
  | addEntry1 r =>
    cases r with
    | ok a => simp [Mutation.remoteError] at herr
    | error e2 =>
      exact ⟨[], by simp [dispatch, handleAddEntry1, Mutation.errMsg]⟩
  | updateEntry1 r =>
    cases r with
    | ok a => simp [Mutation.remoteError] at herr
    | error e2 =>
      exact ⟨[], by simp [dispatch, handleUpdateEntry1, Mutation.errMsg]⟩
  | deleteEntry1 r =>
    cases r with
    | ok a => simp [Mutation.remoteError] at herr
    | error e2 =>
      exact ⟨[], by simp [dispatch, handleDeleteEntry1, Mutation.errMsg]⟩
  | addPost1 r =>
    cases r with
    | ok a => simp [Mutation.remoteError] at herr
    | error e2 =>
      exact ⟨[], by simp [dispatch, handleAddPost1, Mutation.errMsg]⟩
  | addFriend1 r =>
    cases r with
    | ok a => simp [Mutation.remoteError] at herr
    | error e2 =>
      exact ⟨[], by simp [dispatch, handleAddFriend1, Mutation.errMsg]⟩
  | updateConfig1 c r =>
    cases r with
    | ok a => simp [Mutation.remoteError] at herr
    | error e2 =>
      exact ⟨[], by simp [dispatch, handleUpdateConfig1, Mutation.errMsg]⟩
  | addTask1 r =>
    cases r with
    | ok a => simp [Mutation.remoteError] at herr
    | error e2 =>
      exact ⟨[], by simp [dispatch, handleAddTask1, Mutation.errMsg]⟩
  | toggleTask1 id c r =>
    cases r with
    | ok a => simp [Mutation.remoteError] at herr
    | error e2 =>
      cases fetchOk with
      | false =>
        exact ⟨["Error fetching data:"], by
          simp [dispatch, handleToggleTask1, fetchData, Mutation.errMsg]⟩
      | true =>
        exact ⟨[], by
          simp [dispatch, handleToggleTask1, fetchData, Mutation.errMsg]⟩
  | deleteTask1 id r =>
    cases r with
    | ok a => simp [Mutation.remoteError] at herr
    | error e2 =>
      cases fetchOk with
      | false =>
        exact ⟨["Error fetching data:"], by
          simp [dispatch, handleDeleteTask1, fetchData, Mutation.errMsg]⟩
      | true =>
        exact ⟨[], by
          simp [dispatch, handleDeleteTask1, fetchData, Mutation.errMsg]⟩
  | addEntry2 r =>
    cases r with
    | ok a => simp [Mutation.remoteError] at herr
    | error e2 =>
      exact ⟨[], by simp [dispatch, handleAddEntry2, Mutation.errMsg]⟩
  | addPost2 r =>
    cases r with
    | ok a => simp [Mutation.remoteError] at herr
    | error e2 =>
      exact ⟨[], by simp [dispatch, handleAddPost2, Mutation.errMsg]⟩
  | addFriend2 r =>
    cases r with
    | ok a => simp [Mutation.remoteError] at herr
    | error e2 =>
      exact ⟨[], by simp [dispatch, handleAddFriend2, Mutation.errMsg]⟩
  | likePost2 postId r =>
    cases r with
    | ok a => simp [Mutation.remoteError] at herr
    | error e2 =>
      simp only [Mutation.issuesRemoteCall] at hcall
      obtain ⟨post, hfind⟩ := Option.isSome_iff_exists.mp hcall
      exact ⟨[], by
        simp [dispatch, handleLikePost, hfind, Mutation.errMsg]⟩
  | updateConfig2 c r =>
    cases r with
    | ok a => simp [Mutation.remoteError] at herr
    | error e2 =>
      exact ⟨[], by simp [dispatch, handleUpdateConfig2, Mutation.errMsg]⟩
  | addTask2 r =>
    cases r with
    | ok a => simp [Mutation.remoteError] at herr
    | error e2 =>
      exact ⟨[], by simp [dispatch, handleAddTask2, Mutation.errMsg]⟩
  | toggleTask2 id c r =>
    cases r with
    | ok a => simp [Mutation.remoteError] at herr
    | error e2 =>
      exact ⟨[], by simp [dispatch, handleToggleTask2, Mutation.errMsg]⟩
  | deleteTask2 id r =>
    cases r with
    | ok a => simp [Mutation.remoteError] at herr
    | error e2 =>
      exact ⟨[], by simp [dispatch, handleDeleteTask2, Mutation.errMsg]⟩

/-- C8 witness: the failing variant-2 toggle mutation, dispatched from
the empty state, yields a normal state whose log gained the handler's
error message. -/
theorem mutation_failure_caught_and_logged_witness :
    ∃ rest,
      (dispatch {} {} true
          (Mutation.toggleTask2 "1" true (Except.error "boom"))).log =
        ({} : AppState).log ++
          [(Mutation.toggleTask2 "1" true (Except.error "boom")).errMsg] ++
          rest :=
  mutation_failure_caught_and_logged {} {} true
    (Mutation.toggleTask2 "1" true (Except.error "boom")) "boom" rfl rfl

end Diary
